import Mathlib

/-!
# Bezier curve editor: curve evaluation, picking and animation indices

A shallow embedding of `src/main.cpp`.  The program works on `float`s; here every
`float` is an exact rational number, so the theorems describe the arithmetic the
source text writes down, without rounding.

* `buildCurve`       : lines 116-140
* `clock`            : lines 71-75
* `drawScene`        : lines 254-259 and 271 (the computed indices and the scale)
* `onMouseMove`      : lines 386-399
* `onMouseButton`    : lines 402-422
* `initialise`       : lines 202-209, together with lines 324-325 of `main`
-/

namespace BezierEditor

/-- Two-component vector, the `Vec2` of the source (an `Eigen::Vector2f`). -/
structure Vec2 where
  x : ℚ
  y : ℚ
deriving DecidableEq, Repr

namespace Vec2

instance : Add Vec2 := ⟨fun a b => ⟨a.x + b.x, a.y + b.y⟩⟩
instance : Sub Vec2 := ⟨fun a b => ⟨a.x - b.x, a.y - b.y⟩⟩
/-- Scalar on the left, `s * v`. -/
instance : HMul ℚ Vec2 Vec2 := ⟨fun s v => ⟨s * v.x, s * v.y⟩⟩
/-- Scalar on the right, `v * s`. -/
instance : HMul Vec2 ℚ Vec2 := ⟨fun v s => ⟨v.x * s, v.y * s⟩⟩

/-- Square of the Euclidean norm. -/
def normSq (v : Vec2) : ℚ := v.x * v.x + v.y * v.y

/-- The test `v.norm() < r`.  The norm is a square root, so the test is decided on
the squares: it holds exactly when `r` is positive and `normSq v < r * r`
(see `normLt_iff_sqrt`). -/
def normLt (v : Vec2) (r : ℚ) : Bool := decide (0 < r ∧ normSq v < r * r)

/-- The test `v.norm() > 0.0f`: the norm is positive exactly when its square is
(see `normPos_iff_sqrt`). -/
def normPos (v : Vec2) : Bool := decide (0 < normSq v)

end Vec2

/-! ## Constants (lines 9-17) -/

def SPEED_FACTOR : Int := 650
def shrinkFactor : ℚ := 12 / 10
def initialSize : ℚ := 25 / 100
def pointSize : ℚ := 10
def width : ℚ := 720
def height : ℚ := 720
/-- The value of the GLFW constant of the same name. -/
def GLFW_MOUSE_BUTTON_LEFT : Int := 0

/-! ## buildCurve (lines 116-140) -/

/-- The element `controlPoints[k]`; the vector holds four points from `initialise` on
and is never resized. -/
def at4 (controlPoints : List Vec2) (k : Nat) : Vec2 := controlPoints.getD k ⟨0, 0⟩

/-- The body of the loop of `buildCurve` (lines 124-129): the point `b` computed at
loop index `i`, with the source's grouping of the products. -/
def bezierPoint (controlPoints : List Vec2) (i : Nat) : Vec2 :=
  let t : ℚ := (i : ℚ) / 150
  (((1 - t) ^ 3 * at4 controlPoints 0
    + ((1 - t) ^ 2 * at4 controlPoints 1) * (3 : ℚ) * t)
    + ((1 - t) * at4 controlPoints 2) * t ^ 2)
    + t ^ 3 * at4 controlPoints 3

/-- The loop `for (int i = 0; i < 150 + 1; i++)` of `buildCurve`, run from index `i`
for `n` more rounds: each round pushes the point `b` on `bezierPoints` and the
index `i` on `curve`. -/
def buildLoop (controlPoints : List Vec2) :
    Nat → Nat → List Vec2 × List Nat → List Vec2 × List Nat
  | 0, _, acc => acc
  | n + 1, i, acc =>
      buildLoop controlPoints n (i + 1)
        (acc.1 ++ [bezierPoint controlPoints i], acc.2 ++ [i])

/-- The samples and the segment indices `buildCurve` produces: `bezierPoints` and
`curve` after the loop, both started empty. -/
def buildCurveData (controlPoints : List Vec2) : List Vec2 × List Nat :=
  buildLoop controlPoints (150 + 1) 0 ([], [])

/-- The program state: the globals of the curve editor and of the animation, and the
two locals of `main` captured by the listeners (`position`, `selection`).  `selection` is a pointer into
`controlPoints`; it is kept as the index of the element it points to. -/
structure State where
  controlPoints : List Vec2
  bezierPoints : List Vec2
  /-- The "vposition" buffer of the mesh `bezierCurve`. -/
  bezierCurveVbo : List Vec2
  /-- The index buffer of the mesh `bezierCurve`. -/
  bezierCurveIndices : List Nat
  /-- The "vposition" buffer of the mesh `line`. -/
  lineVbo : List Vec2
  position : Vec2
  selection : Option Nat
  sceneTime : ℚ
  frameTime : ℚ
  scaleTime : ℚ
deriving DecidableEq, Repr

/-- The function `buildCurve` of the source: recompute all samples from the control
points and hand them to the mesh `bezierCurve`. -/
def buildCurve (s : State) : State :=
  let d := buildCurveData s.controlPoints
  { s with bezierPoints := d.1, bezierCurveVbo := d.1, bezierCurveIndices := d.2 }

/-! ## initialise (lines 202-209) and the locals of main (lines 324-325) -/

/-- The four hard-coded control points pushed by `initialise`. -/
def initialControlPoints : List Vec2 :=
  [⟨-8 / 10, -16 / 10⟩, ⟨-45 / 100, 7 / 10⟩, ⟨-5 / 100, 0⟩, ⟨18 / 10, 1 / 10⟩]

/-- The state when `app.run()` starts: `initialise` has stored the control points,
called `buildCurve` and filled the mesh `line`; `main` has set `position` to
`(0, 0)` and `selection` to `nullptr`; the three clocks are `0.0f`. -/
def initialState : State :=
  let s0 : State :=
    { controlPoints := initialControlPoints, bezierPoints := [], bezierCurveVbo := [],
      bezierCurveIndices := [], lineVbo := [], position := ⟨0, 0⟩, selection := none,
      sceneTime := 0, frameTime := 0, scaleTime := 0 }
  let s1 := buildCurve s0
  { s1 with lineVbo := s1.controlPoints }

/-! ## clock (lines 71-75) -/

/-- The function `clock` of the source. -/
def clock (s : State) : State :=
  { s with sceneTime := s.sceneTime + 5 / 100000,
           scaleTime := s.scaleTime + 2 / 10000,
           frameTime := s.frameTime + 25 / 100000 }

/-! ## drawScene (lines 254-271) -/

/-- The conversion `(int) q` of a `float` to `int`: the fractional part is discarded
(rounding toward zero). -/
def toInt (q : ℚ) : Int := Int.tdiv q.num (q.den : Int)

/-- Line 255: `(int)(sceneTime * SPEED_FACTOR) % 150`; the remainder of C++ has the
sign of the dividend (`Int.tmod`). -/
def curvePosition (sceneTime : ℚ) : Int :=
  Int.tmod (toInt (sceneTime * (SPEED_FACTOR : ℚ))) 150

/-- Line 271: `(int)(frameTime * 100) % 13`, stored in an `unsigned int`. -/
def frameSelect (frameTime : ℚ) : Int :=
  (Int.tmod (toInt (frameTime * 100)) 13) % 2 ^ 32

/-- What `drawScene` computes for the sprite in one frame. -/
structure SpriteFrame where
  curvePosition : Int
  scaleFactor : ℚ
  /-- The arguments of `Eigen::Translation3f`: the sample `bezierPoints[curvePosition]`. -/
  translation : Vec2
  /-- The first two arguments of `Eigen::AlignedScaling3f`. -/
  scaling : Vec2
  frameSelect : Int
deriving DecidableEq, Repr

/-- The state part of `drawScene` (line 257): `scaleTime` is set to `0.0f` when the
curve position is `149`. -/
def drawSceneState (s : State) : State :=
  if curvePosition s.sceneTime = 149 then { s with scaleTime := 0 } else s

/-- The function `drawScene` of the source, lines 254-271: the state after the frame
and the values computed for the sprite. -/
def drawScene (s : State) : State × SpriteFrame :=
  let curvePosition := curvePosition s.sceneTime
  let s1 := drawSceneState s
  let scaleFactor : ℚ := 1 / (shrinkFactor * (s1.scaleTime + initialSize))
  (s1,
   { curvePosition := curvePosition,
     scaleFactor := scaleFactor,
     translation := s1.bezierPoints.getD curvePosition.toNat ⟨0, 0⟩,
     scaling := ⟨scaleFactor * (195 / 1000), scaleFactor * (15 / 100)⟩,
     frameSelect := frameSelect s1.frameTime })

/-! ## The mouse listeners (lines 386-422) -/

/-- A pointer-move event: the pixel position of the pointer. -/
structure MouseMoveEvent where
  position : Vec2
deriving DecidableEq, Repr

/-- A pointer-button event: the button and whether it was released. -/
structure MouseButtonEvent where
  button : Int
  released : Bool
deriving DecidableEq, Repr

/-- Lines 388-389: the scene-space position `p` of a pixel position. -/
def scenePosition (pixel : Vec2) : Vec2 :=
  let centre : Vec2 := ⟨pixel.x / width, -pixel.y / height⟩
  (2 : ℚ) * (centre - (⟨1 / 2, -1 / 2⟩ : Vec2))

/-- The two assignments `selection->x() = position.x(); selection->y() = position.y();`
on the control point `selection` points to. -/
def writeSelection (controlPoints : List Vec2) (k : Nat) (position : Vec2) : List Vec2 :=
  controlPoints.set k ⟨position.x, position.y⟩

/-- The mouse movement listener (lines 386-399). -/
def onMouseMove (s : State) (m : MouseMoveEvent) : State :=
  let p := scenePosition m.position
  let s1 : State :=
    match s.selection with
    | some k =>
        if Vec2.normPos (p - s.position) then
          let s2 := { s with controlPoints := writeSelection s.controlPoints k s.position }
          let s3 := buildCurve s2
          { s3 with lineVbo := s3.controlPoints }
        else s
    | none => s
  { s1 with position := p }

/-- The loop of lines 406-411 over the control points not yet visited, `k` being the
index of the first of them: the first point nearer to `position` than the pick
radius is selected and the loop is left; `selection` stays `nullptr` when the
loop runs to its end. -/
def pickLoop (position : Vec2) : List Vec2 → Nat → Option Nat
  | [], _ => none
  | v :: rest, k =>
      if Vec2.normLt (v - position) (pointSize / min width height) then some k
      else pickLoop position rest (k + 1)

/-- The mouse click listener (lines 402-422). -/
def onMouseButton (s : State) (e : MouseButtonEvent) : State :=
  let s1 : State :=
    if e.button = GLFW_MOUSE_BUTTON_LEFT ∧ e.released = false then
      { s with selection := pickLoop s.position s.controlPoints 0 }
    else s
  if e.button = GLFW_MOUSE_BUTTON_LEFT ∧ e.released = true then
    match s1.selection with
    | some k =>
        let cps := writeSelection s1.controlPoints k s1.position
        { s1 with controlPoints := cps, selection := none, lineVbo := cps }
    | none => s1
  else s1

/-! ## Reference definitions, following the words of the specification -/

/-- The standard cubic Bezier point of `P0..P3` at parameter `t`: the combination with
the Bernstein weights `(1-t)^3`, `3(1-t)^2 t`, `3(1-t) t^2`, `t^3`. -/
def bernsteinPoint (P0 P1 P2 P3 : Vec2) (t : ℚ) : Vec2 :=
  ((1 - t) ^ 3 * P0 + (3 * (1 - t) ^ 2 * t) * P1 + (3 * (1 - t) * t ^ 2) * P2) + t ^ 3 * P3

/-- Linear interpolation between two points. -/
def lerp (A B : Vec2) (t : ℚ) : Vec2 := (1 - t) * A + t * B

/-- The de Casteljau point of `P0..P3` at parameter `t`: three rounds of linear
interpolation. -/
def deCasteljau (P0 P1 P2 P3 : Vec2) (t : ℚ) : Vec2 :=
  lerp (lerp (lerp P0 P1 t) (lerp P1 P2 t) t) (lerp (lerp P1 P2 t) (lerp P2 P3 t) t) t

/-! ## States used in the worked examples -/

/-- The initial state after a pointer-move event to pixel (199, 108), one pixel to the
right of control point 1 (which sits at pixel (198, 108)). -/
def hoverState : State := onMouseMove initialState ⟨⟨199, 108⟩⟩

/-- The state `hoverState` after a left-button-down event: control point 1 is grabbed. -/
def grabState : State := onMouseButton hoverState ⟨GLFW_MOUSE_BUTTON_LEFT, false⟩

/-- A state with control points 0 and 1 dragged close together, at pixels (360, 360) and
(364, 360), and the pointer recorded on control point 1. -/
def overlapState : State :=
  { buildCurve { initialState with
      controlPoints := [⟨0, 0⟩, ⟨1 / 90, 0⟩, ⟨-5 / 100, 0⟩, ⟨18 / 10, 1 / 10⟩] } with
    lineVbo := [⟨0, 0⟩, ⟨1 / 90, 0⟩, ⟨-5 / 100, 0⟩, ⟨18 / 10, 1 / 10⟩],
    position := ⟨1 / 90, 0⟩ }

/-- A frame state: the initial state with the clocks as `n` calls of `clock` leave
them. -/
def frameState (n : Nat) : State :=
  { initialState with sceneTime := (n : ℚ) * (5 / 100000),
                      scaleTime := (n : ℚ) * (2 / 10000),
                      frameTime := (n : ℚ) * (25 / 100000) }

/-! ## Basic facts on buildCurve -/

theorem buildLoop_fst (cps : List Vec2) (n i : Nat) (acc : List Vec2 × List Nat) :
    (buildLoop cps n i acc).1
      = acc.1 ++ (List.range n).map (fun j => bezierPoint cps (i + j)) := by
  induction n generalizing i acc with
  | zero => simp [buildLoop]
  | succ n ih =>
    rw [buildLoop, ih, List.range_succ_eq_map]
    simp [List.map_map, Function.comp_def, Nat.add_assoc, Nat.add_comm 1]

theorem buildCurveData_fst (cps : List Vec2) :
    (buildCurveData cps).1 = (List.range 151).map (fun j => bezierPoint cps j) := by
  simp [buildCurveData, buildLoop_fst]

theorem buildCurveData_length (cps : List Vec2) : (buildCurveData cps).1.length = 151 := by
  simp [buildCurveData_fst]

theorem buildCurveData_get (cps : List Vec2) (i : Nat) (h : i ≤ 150) :
    (buildCurveData cps).1[i]? = some (bezierPoint cps i) := by
  rw [buildCurveData_fst, List.getElem?_map, List.getElem?_range (by omega)]
  rfl

/-! ## Vectors and the norm tests -/

@[simp] theorem Vec2.add_x (a b : Vec2) : (a + b).x = a.x + b.x := rfl
@[simp] theorem Vec2.add_y (a b : Vec2) : (a + b).y = a.y + b.y := rfl
@[simp] theorem Vec2.sub_x (a b : Vec2) : (a - b).x = a.x - b.x := rfl
@[simp] theorem Vec2.sub_y (a b : Vec2) : (a - b).y = a.y - b.y := rfl
@[simp] theorem Vec2.smul_x (c : ℚ) (a : Vec2) : (c * a).x = c * a.x := rfl
@[simp] theorem Vec2.smul_y (c : ℚ) (a : Vec2) : (c * a).y = c * a.y := rfl
@[simp] theorem Vec2.mul_x (a : Vec2) (c : ℚ) : (a * c).x = a.x * c := rfl
@[simp] theorem Vec2.mul_y (a : Vec2) (c : ℚ) : (a * c).y = a.y * c := rfl

theorem Vec2.ext_iff' (a b : Vec2) : a = b ↔ a.x = b.x ∧ a.y = b.y := by
  cases a; cases b; simp

theorem Vec2.normSq_nonneg (v : Vec2) : 0 ≤ v.normSq := by
  unfold Vec2.normSq
  nlinarith [mul_self_nonneg v.x, mul_self_nonneg v.y]

/-- The decidable test `normLt` is the comparison of the Euclidean norm, a real square
root, with the bound. -/
theorem Vec2.normLt_iff_sqrt (v : Vec2) (r : ℚ) :
    v.normLt r = true ↔ Real.sqrt ((v.x : ℝ) ^ 2 + (v.y : ℝ) ^ 2) < (r : ℝ) := by
  have hcast : ((v.normSq : ℚ) : ℝ) = (v.x : ℝ) ^ 2 + (v.y : ℝ) ^ 2 := by
    unfold Vec2.normSq
    push_cast
    ring
  by_cases hr : 0 < r
  · have hr' : (0 : ℝ) < (r : ℝ) := by exact_mod_cast hr
    rw [Real.sqrt_lt' hr', ← hcast]
    simp only [Vec2.normLt, decide_eq_true_eq, hr, true_and]
    constructor
    · intro h
      have : ((v.normSq : ℚ) : ℝ) < ((r * r : ℚ) : ℝ) := by exact_mod_cast h
      simpa [pow_two] using this
    · intro h
      have : ((v.normSq : ℚ) : ℝ) < ((r * r : ℚ) : ℝ) := by simpa [pow_two] using h
      exact_mod_cast this
  · have hr' : (r : ℝ) ≤ 0 := by exact_mod_cast not_lt.mp hr
    constructor
    · intro h
      simp [Vec2.normLt, hr] at h
    · intro h
      exact absurd (lt_of_lt_of_le h hr') (not_lt.mpr (Real.sqrt_nonneg _))

/-- The decidable test `normPos` is the comparison `norm > 0` of the real norm. -/
theorem Vec2.normPos_iff_sqrt (v : Vec2) :
    v.normPos = true ↔ 0 < Real.sqrt ((v.x : ℝ) ^ 2 + (v.y : ℝ) ^ 2) := by
  have hcast : ((v.normSq : ℚ) : ℝ) = (v.x : ℝ) ^ 2 + (v.y : ℝ) ^ 2 := by
    unfold Vec2.normSq
    push_cast
    ring
  rw [Real.sqrt_pos, ← hcast]
  simp only [Vec2.normPos, decide_eq_true_eq]
  exact_mod_cast Iff.rfl

/-- The norm of a difference is positive exactly when the two vectors differ. -/
theorem Vec2.normPos_sub_iff (a b : Vec2) : (a - b).normPos = true ↔ a ≠ b := by
  simp only [Vec2.normPos, decide_eq_true_eq, Vec2.normSq, Vec2.sub_x, Vec2.sub_y, ne_eq,
    Vec2.ext_iff']
  constructor
  · rintro h ⟨hx, hy⟩
    simp [hx, hy] at h
  · intro h
    by_contra hn
    apply h
    have h1 : (a.x - b.x) * (a.x - b.x) = 0 := by
      nlinarith [mul_self_nonneg (a.x - b.x), mul_self_nonneg (a.y - b.y)]
    have h2 : (a.y - b.y) * (a.y - b.y) = 0 := by
      nlinarith [mul_self_nonneg (a.x - b.x), mul_self_nonneg (a.y - b.y)]
    exact ⟨sub_eq_zero.mp (mul_self_eq_zero.mp h1), sub_eq_zero.mp (mul_self_eq_zero.mp h2)⟩

/-! ## The pick loop and the listeners -/

/-- The pick radius `pointSize / std::min(width, height)`. -/
theorem pickRadius_eq : pointSize / min width height = 10 / 720 := by
  simp [pointSize, width, height]

theorem pickLoop_some_iff (q : Vec2) (l : List Vec2) (k j : Nat) :
    pickLoop q l k = some j ↔
      ∃ n, j = k + n ∧ n < l.length ∧
        (at4 l n - q).normLt (pointSize / min width height) = true ∧
        ∀ m, m < n → (at4 l m - q).normLt (pointSize / min width height) = false := by
  induction l generalizing k with
  | nil => simp [pickLoop]
  | cons v rest ih =>
    rw [pickLoop]
    by_cases hv : (v - q).normLt (pointSize / min width height) = true
    · rw [if_pos hv]
      constructor
      · intro h
        refine ⟨0, ?_, by simp, by simpa [at4] using hv, by simp⟩
        simpa using (Option.some.inj h).symm
      · rintro ⟨n, hj, -, -, hfirst⟩
        cases n with
        | zero => simp [hj]
        | succ n =>
          have := hfirst 0 (Nat.succ_pos n)
          simp [at4, hv] at this
    · rw [if_neg hv, ih]
      have hv' : (v - q).normLt (pointSize / min width height) = false := by
        simpa using hv
      constructor
      · rintro ⟨n, hj, hn, hhit, hfirst⟩
        refine ⟨n + 1, by omega, by simpa using hn, by simpa [at4] using hhit, ?_⟩
        intro m hm
        cases m with
        | zero => simpa [at4] using hv'
        | succ m => simpa [at4] using hfirst m (by omega)
      · rintro ⟨n, hj, hn, hhit, hfirst⟩
        cases n with
        | zero => simp [at4, hv'] at hhit
        | succ n =>
          refine ⟨n, by omega, by simpa using hn, by simpa [at4] using hhit, ?_⟩
          intro m hm
          simpa [at4] using hfirst (m + 1) (by omega)

theorem pickLoop_none_iff (q : Vec2) (l : List Vec2) (k : Nat) :
    pickLoop q l k = none ↔
      ∀ n, n < l.length → (at4 l n - q).normLt (pointSize / min width height) = false := by
  induction l generalizing k with
  | nil => simp [pickLoop]
  | cons v rest ih =>
    rw [pickLoop]
    by_cases hv : (v - q).normLt (pointSize / min width height) = true
    · rw [if_pos hv]
      constructor
      · intro h
        cases h
      · intro h
        have := h 0 (by simp)
        simp [at4, hv] at this
    · rw [if_neg hv, ih]
      have hv' : (v - q).normLt (pointSize / min width height) = false := by
        simpa using hv
      constructor
      · intro h n hn
        cases n with
        | zero => simpa [at4] using hv'
        | succ n => simpa [at4] using h n (by simpa using hn)
      · intro h n hn
        simpa [at4] using h (n + 1) (by simpa using hn)

/-- What a left-button-down event does to the state: only `selection` changes, to the
result of the pick loop. -/
theorem onMouseButton_down (s : State) (e : MouseButtonEvent)
    (hb : e.button = GLFW_MOUSE_BUTTON_LEFT) (hr : e.released = false) :
    onMouseButton s e = { s with selection := pickLoop s.position s.controlPoints 0 } := by
  simp [onMouseButton, hb, hr]

/-- What a left-button-up event does while the control point of index `k` is selected:
the recorded position is written into that point, the selection is cleared and the
mesh `line` receives the control points; `bezierPoints` is not touched. -/
theorem onMouseButton_up (s : State) (e : MouseButtonEvent) (k : Nat)
    (hb : e.button = GLFW_MOUSE_BUTTON_LEFT) (hr : e.released = true)
    (hsel : s.selection = some k) :
    onMouseButton s e =
      { s with controlPoints := writeSelection s.controlPoints k s.position,
               selection := none,
               lineVbo := writeSelection s.controlPoints k s.position } := by
  simp [onMouseButton, hb, hr, hsel]

/-- What a pointer-move event does while the control point of index `k` is selected
and the pointer has moved: the position recorded before the event is written into
the point, the curve is rebuilt, and the position of the event is recorded. -/
theorem onMouseMove_drag (s : State) (m : MouseMoveEvent) (k : Nat)
    (hsel : s.selection = some k) (hmoved : scenePosition m.position ≠ s.position) :
    onMouseMove s m =
      { s with controlPoints := writeSelection s.controlPoints k s.position,
               bezierPoints := (buildCurveData (writeSelection s.controlPoints k s.position)).1,
               bezierCurveVbo := (buildCurveData (writeSelection s.controlPoints k s.position)).1,
               bezierCurveIndices :=
                 (buildCurveData (writeSelection s.controlPoints k s.position)).2,
               lineVbo := writeSelection s.controlPoints k s.position,
               position := scenePosition m.position } := by
  have h := (Vec2.normPos_sub_iff (scenePosition m.position) s.position).mpr hmoved
  simp [onMouseMove, hsel, h, buildCurve]

/-- A pointer-move event without a selection only records the position. -/
theorem onMouseMove_idle (s : State) (m : MouseMoveEvent) (hsel : s.selection = none) :
    onMouseMove s m = { s with position := scenePosition m.position } := by
  simp [onMouseMove, hsel]

/-- The formula of lines 388-389 in closed form. -/
theorem scenePosition_eq (pixel : Vec2) :
    scenePosition pixel = ⟨2 * pixel.x / width - 1, 1 - 2 * pixel.y / height⟩ := by
  rw [Vec2.ext_iff']
  simp only [scenePosition, Vec2.smul_x, Vec2.smul_y, Vec2.sub_x, Vec2.sub_y]
  constructor <;> ring

theorem onMouseMove_position (s : State) (m : MouseMoveEvent) :
    (onMouseMove s m).position = scenePosition m.position := by
  simp [onMouseMove]

/-- The pick test of line 407 on a control point `v` and the recorded position `q`, as
a comparison of the Euclidean distance with the pick radius. -/
theorem hit_iff_dist (v q : Vec2) :
    (v - q).normLt (pointSize / min width height) = true ↔
      Real.sqrt (((v.x : ℝ) - (q.x : ℝ)) ^ 2 + ((v.y : ℝ) - (q.y : ℝ)) ^ 2) < (10 / 720 : ℝ) := by
  rw [Vec2.normLt_iff_sqrt, pickRadius_eq]
  simp only [Vec2.sub_x, Vec2.sub_y]
  push_cast
  exact Iff.rfl

theorem bezierPoint_four (P0 P1 P2 P3 : Vec2) (i : Nat) :
    bezierPoint [P0, P1, P2, P3] i =
      ⟨(1 - (i : ℚ) / 150) ^ 3 * P0.x + 3 * (1 - (i : ℚ) / 150) ^ 2 * ((i : ℚ) / 150) * P1.x
          + (1 - (i : ℚ) / 150) * ((i : ℚ) / 150) ^ 2 * P2.x + ((i : ℚ) / 150) ^ 3 * P3.x,
       (1 - (i : ℚ) / 150) ^ 3 * P0.y + 3 * (1 - (i : ℚ) / 150) ^ 2 * ((i : ℚ) / 150) * P1.y
          + (1 - (i : ℚ) / 150) * ((i : ℚ) / 150) ^ 2 * P2.y + ((i : ℚ) / 150) ^ 3 * P3.y⟩ := by
  rw [Vec2.ext_iff']
  simp only [bezierPoint, at4, List.getD_cons_zero, List.getD_cons_succ, Vec2.add_x, Vec2.add_y,
    Vec2.smul_x, Vec2.smul_y, Vec2.mul_x, Vec2.mul_y]
  constructor <;> ring

theorem buildCurve_bezierPoints (s : State) :
    (buildCurve s).bezierPoints = (buildCurveData s.controlPoints).1 := by
  simp only [buildCurve]

theorem buildCurve_controlPoints (s : State) :
    (buildCurve s).controlPoints = s.controlPoints := by
  simp only [buildCurve]

theorem initialState_bezierPoints :
    initialState.bezierPoints = (buildCurveData initialControlPoints).1 := by
  simp only [initialState, buildCurve]

theorem initialState_controlPoints : initialState.controlPoints = initialControlPoints := by
  simp only [initialState, buildCurve]

/-! ## The curve index and the scale clock -/

theorem toInt_of_nonneg (q : ℚ) (h : 0 ≤ q) : toInt q = ⌊q⌋ := by
  unfold toInt
  rw [Int.tdiv_eq_ediv (Rat.num_nonneg.mpr h) (Int.natCast_nonneg _), Rat.floor_def]

/-- What line 255 computes for a non-negative scene time: the floor of
`sceneTime * 650`, reduced modulo 150. -/
theorem curvePosition_of_nonneg (sceneTime : ℚ) (h : 0 ≤ sceneTime) :
    curvePosition sceneTime = ⌊sceneTime * 650⌋ % 150 := by
  have h650 : (0 : ℚ) ≤ sceneTime * 650 := by positivity
  unfold curvePosition
  simp only [SPEED_FACTOR, Int.cast_ofNat]
  rw [toInt_of_nonneg _ h650, Int.tmod_eq_emod (Int.floor_nonneg.mpr h650) (by decide)]

/-- The curve index stays below 150: the last sample, of index 150, is never used. -/
theorem curvePosition_lt_150 (sceneTime : ℚ) (h : 0 ≤ sceneTime) :
    0 ≤ curvePosition sceneTime ∧ curvePosition sceneTime < 150 := by
  rw [curvePosition_of_nonneg _ h]
  constructor
  · exact Int.emod_nonneg _ (by decide)
  · exact Int.emod_lt_of_pos _ (by decide)

/-- The scale clock after `drawScene`: zero when the curve index is 149, unchanged
otherwise. -/
theorem drawScene_scaleTime (s : State) :
    (drawScene s).1.scaleTime = if curvePosition s.sceneTime = 149 then 0 else s.scaleTime := by
  unfold drawScene drawSceneState
  by_cases h : curvePosition s.sceneTime = 149
  · simp [h]
  · simp [h]

/-- The scale factor of a frame is computed from the scale clock after the reset. -/
theorem drawScene_scaleFactor (s : State) :
    (drawScene s).2.scaleFactor
      = 1 / (shrinkFactor * ((drawScene s).1.scaleTime + initialSize)) := by
  simp only [drawScene]

theorem clock_iterate (n : Nat) : clock^[n] initialState = frameState n := by
  induction n with
  | zero => simp [frameState, initialState, buildCurve]
  | succ n ih =>
    rw [Function.iterate_succ_apply', ih]
    simp only [clock, frameState, State.mk.injEq, true_and]
    push_cast
    refine ⟨?_, ?_, ?_⟩ <;> ring

/-! ## The worked example states -/

theorem hoverState_eq : hoverState = { initialState with position := ⟨-161 / 360, 7 / 10⟩ } := by
  unfold hoverState
  rw [onMouseMove_idle initialState _ (by simp only [initialState, buildCurve])]
  have h : scenePosition ⟨199, 108⟩ = ⟨-161 / 360, 7 / 10⟩ := by
    rw [scenePosition_eq, Vec2.ext_iff']
    constructor <;> norm_num [width, height]
  simp only [h]

theorem hoverState_controlPoints : hoverState.controlPoints = initialControlPoints := by
  rw [hoverState_eq]
  exact initialState_controlPoints

theorem hoverState_position : hoverState.position = ⟨-161 / 360, 7 / 10⟩ := by
  rw [hoverState_eq]

theorem hoverState_pick : pickLoop hoverState.position hoverState.controlPoints 0 = some 1 := by
  rw [hoverState_controlPoints, hoverState_position]
  simp only [initialControlPoints, pickLoop, Vec2.normLt, Vec2.normSq, Vec2.sub_x, Vec2.sub_y,
    pointSize, width, height]
  norm_num

/-- In `hoverState` the pointer is within the pick radius of control point 1. -/
theorem hoverState_near_point_one :
    Real.sqrt ((((at4 hoverState.controlPoints 1).x : ℝ) - (hoverState.position.x : ℝ)) ^ 2
      + (((at4 hoverState.controlPoints 1).y : ℝ) - (hoverState.position.y : ℝ)) ^ 2)
      < (10 / 720 : ℝ) := by
  rw [← hit_iff_dist, hoverState_controlPoints, hoverState_position]
  simp only [initialControlPoints, at4, List.getD_cons_zero, List.getD_cons_succ,
    Vec2.normLt, Vec2.normSq, Vec2.sub_x, Vec2.sub_y, pointSize, width, height]
  norm_num

/-- In `hoverState` the pointer is outside the pick radius of control point 0. -/
theorem hoverState_far_point_zero :
    ¬ Real.sqrt ((((at4 hoverState.controlPoints 0).x : ℝ) - (hoverState.position.x : ℝ)) ^ 2
      + (((at4 hoverState.controlPoints 0).y : ℝ) - (hoverState.position.y : ℝ)) ^ 2)
      < (10 / 720 : ℝ) := by
  rw [← hit_iff_dist, hoverState_controlPoints, hoverState_position]
  simp only [initialControlPoints, at4, List.getD_cons_zero, Vec2.normLt, Vec2.normSq,
    Vec2.sub_x, Vec2.sub_y, pointSize, width, height]
  norm_num

theorem hoverState_length : hoverState.controlPoints.length = 4 := by
  rw [hoverState_controlPoints]
  rfl

theorem grabState_eq : grabState = { hoverState with selection := some 1 } := by
  unfold grabState
  rw [onMouseButton_down hoverState _ rfl rfl, hoverState_pick]

theorem grabState_selection : grabState.selection = some 1 := by
  rw [grabState_eq]

theorem grabState_position : grabState.position = ⟨-161 / 360, 7 / 10⟩ := by
  rw [grabState_eq]
  exact hoverState_position

theorem grabState_controlPoints : grabState.controlPoints = initialControlPoints := by
  rw [grabState_eq]
  exact hoverState_controlPoints

theorem grabState_bezierPoints :
    grabState.bezierPoints = (buildCurveData initialControlPoints).1 := by
  rw [grabState_eq, hoverState_eq]
  exact initialState_bezierPoints

theorem grabState_write :
    writeSelection grabState.controlPoints 1 grabState.position
      = [⟨-8 / 10, -16 / 10⟩, ⟨-161 / 360, 7 / 10⟩, ⟨-5 / 100, 0⟩, ⟨18 / 10, 1 / 10⟩] := by
  rw [grabState_controlPoints, grabState_position]
  simp [writeSelection, initialControlPoints]

/-! ## The standard cubic Bezier curve and the code's blend -/

/-- The de Casteljau point is the Bernstein combination. -/
theorem deCasteljau_eq_bernstein (P0 P1 P2 P3 : Vec2) (t : ℚ) :
    deCasteljau P0 P1 P2 P3 t = bernsteinPoint P0 P1 P2 P3 t := by
  rw [Vec2.ext_iff']
  simp only [deCasteljau, lerp, bernsteinPoint, Vec2.add_x, Vec2.add_y, Vec2.smul_x,
    Vec2.smul_y]
  constructor <;> ring

/-- The four Bernstein weights sum to one. -/
theorem bernstein_weights_sum (t : ℚ) :
    (1 - t) ^ 3 + 3 * (1 - t) ^ 2 * t + 3 * (1 - t) * t ^ 2 + t ^ 3 = 1 := by
  ring

/-- The point the loop of `buildCurve` computes and the standard Bezier point differ by
twice the third term: the factor 3 is missing on the term of P2. -/
theorem bezierPoint_add_missing (P0 P1 P2 P3 : Vec2) (i : Nat) :
    bezierPoint [P0, P1, P2, P3] i
        + (2 * (1 - (i : ℚ) / 150) * ((i : ℚ) / 150) ^ 2) * P2
      = bernsteinPoint P0 P1 P2 P3 ((i : ℚ) / 150) := by
  rw [bezierPoint_four, Vec2.ext_iff']
  simp only [bernsteinPoint, Vec2.add_x, Vec2.add_y, Vec2.smul_x, Vec2.smul_y]
  constructor <;> ring

/-! ## The curve index in drawScene -/

theorem drawScene_curvePosition (s : State) :
    (drawScene s).2.curvePosition = curvePosition s.sceneTime := by
  simp only [drawScene]

theorem frameState_sceneTime (n : Nat) : (frameState n).sceneTime = (n : ℚ) * (5 / 100000) := by
  simp only [frameState]

theorem frameState_scaleTime (n : Nat) : (frameState n).scaleTime = (n : ℚ) * (2 / 10000) := by
  simp only [frameState]

/-! ## Picking when pick radii overlap -/

theorem overlapState_controlPoints :
    overlapState.controlPoints = [⟨0, 0⟩, ⟨1 / 90, 0⟩, ⟨-5 / 100, 0⟩, ⟨18 / 10, 1 / 10⟩] := by
  simp only [overlapState, buildCurve]

theorem overlapState_position : overlapState.position = ⟨1 / 90, 0⟩ := by
  simp only [overlapState]

theorem overlapState_pick :
    pickLoop overlapState.position overlapState.controlPoints 0 = some 0 := by
  rw [overlapState_controlPoints, overlapState_position]
  simp only [pickLoop, Vec2.normLt, Vec2.normSq, Vec2.sub_x, Vec2.sub_y, pointSize, width,
    height]
  norm_num

/-! ## Main results -/

/-- C1: for every four control points P0..P3 and every i with 0 <= i <= 150, sample i of
the sequence `buildCurve` stores in `bezierPoints` is
(1-t)^3 P0 + 3 (1-t)^2 t P1 + (1-t) t^2 P2 + t^3 P3 with t = i/150, in both
coordinates. -/
theorem C1_sample_formula (s : State) (P0 P1 P2 P3 : Vec2) (i : Nat) (hi : i ≤ 150) :
    ∃ b : Vec2,
      (buildCurve { s with controlPoints := [P0, P1, P2, P3] }).bezierPoints[i]? = some b ∧
      b.x = (1 - (i : ℚ) / 150) ^ 3 * P0.x + 3 * (1 - (i : ℚ) / 150) ^ 2 * ((i : ℚ) / 150) * P1.x
          + (1 - (i : ℚ) / 150) * ((i : ℚ) / 150) ^ 2 * P2.x + ((i : ℚ) / 150) ^ 3 * P3.x ∧
      b.y = (1 - (i : ℚ) / 150) ^ 3 * P0.y + 3 * (1 - (i : ℚ) / 150) ^ 2 * ((i : ℚ) / 150) * P1.y
          + (1 - (i : ℚ) / 150) * ((i : ℚ) / 150) ^ 2 * P2.y + ((i : ℚ) / 150) ^ 3 * P3.y := by
  refine ⟨bezierPoint [P0, P1, P2, P3] i, ?_, ?_, ?_⟩
  · rw [buildCurve_bezierPoints]
    exact buildCurveData_get _ i hi
  · rw [bezierPoint_four]
  · rw [bezierPoint_four]

/-- Instance of C1 at the initial control points and i = 75 (t = 1/2). -/
theorem C1_sample_formula_witness :
    (75 : Nat) ≤ 150 ∧
    ∃ b : Vec2,
      (buildCurve { initialState with
          controlPoints := [⟨-8 / 10, -16 / 10⟩, ⟨-45 / 100, 7 / 10⟩, ⟨-5 / 100, 0⟩,
            ⟨18 / 10, 1 / 10⟩] }).bezierPoints[75]? = some b ∧
      b.x = (1 - ((75 : Nat) : ℚ) / 150) ^ 3 * (-8 / 10)
          + 3 * (1 - ((75 : Nat) : ℚ) / 150) ^ 2 * (((75 : Nat) : ℚ) / 150) * (-45 / 100)
          + (1 - ((75 : Nat) : ℚ) / 150) * (((75 : Nat) : ℚ) / 150) ^ 2 * (-5 / 100)
          + (((75 : Nat) : ℚ) / 150) ^ 3 * (18 / 10) ∧
      b.y = (1 - ((75 : Nat) : ℚ) / 150) ^ 3 * (-16 / 10)
          + 3 * (1 - ((75 : Nat) : ℚ) / 150) ^ 2 * (((75 : Nat) : ℚ) / 150) * (7 / 10)
          + (1 - ((75 : Nat) : ℚ) / 150) * (((75 : Nat) : ℚ) / 150) ^ 2 * 0
          + (((75 : Nat) : ℚ) / 150) ^ 3 * (1 / 10) :=
  ⟨by decide,
   C1_sample_formula initialState ⟨-8 / 10, -16 / 10⟩ ⟨-45 / 100, 7 / 10⟩ ⟨-5 / 100, 0⟩
     ⟨18 / 10, 1 / 10⟩ 75 (by decide)⟩

/-- C2 (evaluation at the initial control points, i = 75, t = 1/2): the sample stored by
`buildCurve` is (-1/20, 3/40), while the standard cubic Bezier point, Bernstein or
de Casteljau, is (-1/16, 3/40); the weights used by the code sum to 3/4 there. -/
theorem C2_sample_differs_from_standard_bezier :
    initialState.controlPoints
      = [⟨-8 / 10, -16 / 10⟩, ⟨-45 / 100, 7 / 10⟩, ⟨-5 / 100, 0⟩, ⟨18 / 10, 1 / 10⟩] ∧
    initialState.bezierPoints[75]? = some ⟨-1 / 20, 3 / 40⟩ ∧
    bernsteinPoint ⟨-8 / 10, -16 / 10⟩ ⟨-45 / 100, 7 / 10⟩ ⟨-5 / 100, 0⟩ ⟨18 / 10, 1 / 10⟩
      (((75 : Nat) : ℚ) / 150) = ⟨-1 / 16, 3 / 40⟩ ∧
    deCasteljau ⟨-8 / 10, -16 / 10⟩ ⟨-45 / 100, 7 / 10⟩ ⟨-5 / 100, 0⟩ ⟨18 / 10, 1 / 10⟩
      (((75 : Nat) : ℚ) / 150) = ⟨-1 / 16, 3 / 40⟩ ∧
    (1 - ((75 : Nat) : ℚ) / 150) ^ 3 + 3 * (1 - ((75 : Nat) : ℚ) / 150) ^ 2 * (((75 : Nat) : ℚ) / 150)
      + (1 - ((75 : Nat) : ℚ) / 150) * (((75 : Nat) : ℚ) / 150) ^ 2 + (((75 : Nat) : ℚ) / 150) ^ 3
      = 3 / 4 := by
  have hb : bernsteinPoint ⟨-8 / 10, -16 / 10⟩ ⟨-45 / 100, 7 / 10⟩ ⟨-5 / 100, 0⟩
      ⟨18 / 10, 1 / 10⟩ (((75 : Nat) : ℚ) / 150) = ⟨-1 / 16, 3 / 40⟩ := by
    rw [Vec2.ext_iff']
    simp only [bernsteinPoint, Vec2.add_x, Vec2.add_y, Vec2.smul_x, Vec2.smul_y]
    constructor <;> norm_num
  refine ⟨?_, ?_, hb, ?_, ?_⟩
  · rw [initialState_controlPoints, initialControlPoints]
  · rw [initialState_bezierPoints, buildCurveData_get _ 75 (by decide), initialControlPoints,
      bezierPoint_four, Option.some.injEq, Vec2.ext_iff']
    constructor <;> norm_num
  · rw [deCasteljau_eq_bernstein, hb]
  · norm_num

/-- C3: for every four control points P0..P3, after `buildCurve` the sequence
`bezierPoints` has exactly 151 elements, element 0 is P0 and element 150 is P3; with
the initial control points (-0.8,-1.6), (-0.45,0.7), (-0.05,0.0), (1.8,0.1), element 0
is (-0.8,-1.6) and element 150 is (1.8,0.1). -/
theorem C3_length_and_endpoints (s : State) (P0 P1 P2 P3 : Vec2) :
    (buildCurve { s with controlPoints := [P0, P1, P2, P3] }).bezierPoints.length = 151 ∧
    (buildCurve { s with controlPoints := [P0, P1, P2, P3] }).bezierPoints[0]? = some P0 ∧
    (buildCurve { s with controlPoints := [P0, P1, P2, P3] }).bezierPoints[150]? = some P3 ∧
    initialState.controlPoints
      = [⟨-8 / 10, -16 / 10⟩, ⟨-45 / 100, 7 / 10⟩, ⟨-5 / 100, 0⟩, ⟨18 / 10, 1 / 10⟩] ∧
    initialState.bezierPoints.length = 151 ∧
    initialState.bezierPoints[0]? = some ⟨-8 / 10, -16 / 10⟩ ∧
    initialState.bezierPoints[150]? = some ⟨18 / 10, 1 / 10⟩ := by
  have h0 : ∀ A B C D : Vec2, bezierPoint [A, B, C, D] 0 = A := by
    intro A B C D
    rw [bezierPoint_four, Vec2.ext_iff']
    constructor <;> norm_num
  have h150 : ∀ A B C D : Vec2, bezierPoint [A, B, C, D] 150 = D := by
    intro A B C D
    rw [bezierPoint_four, Vec2.ext_iff']
    constructor <;> norm_num
  refine ⟨?_, ?_, ?_, ?_, ?_, ?_, ?_⟩
  · rw [buildCurve_bezierPoints]
    exact buildCurveData_length _
  · rw [buildCurve_bezierPoints, buildCurveData_get _ 0 (by decide), h0]
  · rw [buildCurve_bezierPoints, buildCurveData_get _ 150 (by decide), h150]
  · rw [initialState_controlPoints, initialControlPoints]
  · rw [initialState_bezierPoints]
    exact buildCurveData_length _
  · rw [initialState_bezierPoints, buildCurveData_get _ 0 (by decide), initialControlPoints, h0]
  · rw [initialState_bezierPoints, buildCurveData_get _ 150 (by decide), initialControlPoints,
      h150]

/-- C4: on a left-button-down event with recorded pointer position q, the selection
becomes the control point of the smallest index k in 0..3 whose Euclidean distance to q
is strictly less than pointSize / min(width,height) = 10/720, whether or not a point of
higher index is nearer; the selection becomes none when no control point is within
that radius, whatever was selected before; the control points are not modified. -/
theorem C4_first_point_in_radius (s : State) (e : MouseButtonEvent)
    (hlen : s.controlPoints.length = 4)
    (hb : e.button = GLFW_MOUSE_BUTTON_LEFT) (hr : e.released = false) :
    (onMouseButton s e).controlPoints = s.controlPoints ∧
    pointSize / min width height = 10 / 720 ∧
    (∀ k : Nat, (onMouseButton s e).selection = some k ↔
      (k < 4 ∧
       Real.sqrt ((((at4 s.controlPoints k).x : ℝ) - (s.position.x : ℝ)) ^ 2
          + (((at4 s.controlPoints k).y : ℝ) - (s.position.y : ℝ)) ^ 2) < (10 / 720 : ℝ) ∧
       ∀ j : Nat, j < k →
         ¬ Real.sqrt ((((at4 s.controlPoints j).x : ℝ) - (s.position.x : ℝ)) ^ 2
          + (((at4 s.controlPoints j).y : ℝ) - (s.position.y : ℝ)) ^ 2) < (10 / 720 : ℝ))) ∧
    ((onMouseButton s e).selection = none ↔
      ∀ k : Nat, k < 4 →
        ¬ Real.sqrt ((((at4 s.controlPoints k).x : ℝ) - (s.position.x : ℝ)) ^ 2
          + (((at4 s.controlPoints k).y : ℝ) - (s.position.y : ℝ)) ^ 2) < (10 / 720 : ℝ)) := by
  rw [onMouseButton_down s e hb hr]
  refine ⟨rfl, pickRadius_eq, ?_, ?_⟩
  · intro k
    show pickLoop s.position s.controlPoints 0 = some k ↔ _
    rw [pickLoop_some_iff]
    constructor
    · rintro ⟨n, hk, hn, hhit, hfirst⟩
      have hkn : k = n := by omega
      subst hkn
      refine ⟨by omega, (hit_iff_dist _ _).mp hhit, ?_⟩
      intro j hj hd
      have := hfirst j hj
      rw [(hit_iff_dist _ _).mpr hd] at this
      cases this
    · rintro ⟨hk, hd, hfirst⟩
      refine ⟨k, by omega, by omega, (hit_iff_dist _ _).mpr hd, ?_⟩
      intro m hm
      have := hfirst m hm
      rw [← hit_iff_dist] at this
      simpa using this
  · show pickLoop s.position s.controlPoints 0 = none ↔ _
    rw [pickLoop_none_iff, hlen]
    constructor
    · intro h k hk hd
      have := h k hk
      rw [(hit_iff_dist _ _).mpr hd] at this
      cases this
    · intro h n hn
      have := h n hn
      rw [← hit_iff_dist] at this
      simpa using this

/-- Instance of C4: in `hoverState` (the initial state with the pointer recorded at
pixel (199, 108), one pixel right of control point 1) a left-button-down event selects
index 1 and leaves the control points as they are. -/
theorem C4_first_point_in_radius_witness :
    hoverState.controlPoints.length = 4 ∧
    (onMouseButton hoverState ⟨GLFW_MOUSE_BUTTON_LEFT, false⟩).controlPoints
      = hoverState.controlPoints ∧
    (onMouseButton hoverState ⟨GLFW_MOUSE_BUTTON_LEFT, false⟩).selection = some 1 :=
  ⟨hoverState_length,
   (C4_first_point_in_radius hoverState ⟨GLFW_MOUSE_BUTTON_LEFT, false⟩
      hoverState_length rfl rfl).1,
   ((C4_first_point_in_radius hoverState ⟨GLFW_MOUSE_BUTTON_LEFT, false⟩
      hoverState_length rfl rfl).2.2.1 1).mpr
     ⟨by decide, hoverState_near_point_one, by
        intro j hj
        have hj0 : j = 0 := by omega
        rw [hj0]
        exact hoverState_far_point_zero⟩⟩

/-- C5 (evaluation on the trace: initial state, pointer to pixel (199,108), left button
down, pointer to pixel (200,108)): control point 1 is selected and the new position
(-4/9, 7/10) differs from the recorded one (-161/360, 7/10); after the move event
control point 1 holds the previously recorded position (-161/360, 7/10), not the
position of the event, and sample 75 is (-47/960, 3/40), the evaluation with the
previous position, where the evaluation with the new position gives (-23/480, 3/40). -/
theorem C5_drag_writes_previous_position :
    grabState.selection = some 1 ∧
    grabState.position = ⟨-161 / 360, 7 / 10⟩ ∧
    scenePosition ⟨200, 108⟩ = ⟨-4 / 9, 7 / 10⟩ ∧
    (onMouseMove grabState ⟨⟨200, 108⟩⟩).controlPoints
      = [⟨-8 / 10, -16 / 10⟩, ⟨-161 / 360, 7 / 10⟩, ⟨-5 / 100, 0⟩, ⟨18 / 10, 1 / 10⟩] ∧
    (onMouseMove grabState ⟨⟨200, 108⟩⟩).position = ⟨-4 / 9, 7 / 10⟩ ∧
    (onMouseMove grabState ⟨⟨200, 108⟩⟩).bezierPoints[75]? = some ⟨-47 / 960, 3 / 40⟩ ∧
    bezierPoint [⟨-8 / 10, -16 / 10⟩, ⟨-4 / 9, 7 / 10⟩, ⟨-5 / 100, 0⟩, ⟨18 / 10, 1 / 10⟩] 75
      = ⟨-23 / 480, 3 / 40⟩ := by
  have hscene : scenePosition ⟨200, 108⟩ = ⟨-4 / 9, 7 / 10⟩ := by
    rw [scenePosition_eq, Vec2.ext_iff']
    constructor <;> norm_num [width, height]
  have hmoved : scenePosition (⟨⟨200, 108⟩⟩ : MouseMoveEvent).position ≠ grabState.position := by
    rw [grabState_position, hscene, ne_eq, Vec2.ext_iff']
    norm_num
  refine ⟨grabState_selection, grabState_position, hscene, ?_, ?_, ?_, ?_⟩
  · rw [onMouseMove_drag grabState _ 1 grabState_selection hmoved, grabState_write]
  · rw [onMouseMove_position, hscene]
  · rw [onMouseMove_drag grabState _ 1 grabState_selection hmoved, grabState_write]
    show (buildCurveData _).1[75]? = _
    rw [buildCurveData_get _ 75 (by decide), bezierPoint_four, Option.some.injEq, Vec2.ext_iff']
    constructor <;> norm_num
  · rw [bezierPoint_four, Vec2.ext_iff']
    constructor <;> norm_num

/-- C6 (evaluation on the trace: initial state, pointer to pixel (199,108), left button
down, left button up): after the release the selection is none and control point 1
holds the recorded position (-161/360, 7/10), but `bezierPoints` is the sequence
computed before the event: its sample 75 is (-1/20, 3/40), where the evaluation of the
control points after the event gives (-47/960, 3/40). -/
theorem C6_release_does_not_rebuild :
    grabState.selection = some 1 ∧
    (onMouseButton grabState ⟨GLFW_MOUSE_BUTTON_LEFT, true⟩).selection = none ∧
    (onMouseButton grabState ⟨GLFW_MOUSE_BUTTON_LEFT, true⟩).controlPoints
      = [⟨-8 / 10, -16 / 10⟩, ⟨-161 / 360, 7 / 10⟩, ⟨-5 / 100, 0⟩, ⟨18 / 10, 1 / 10⟩] ∧
    (onMouseButton grabState ⟨GLFW_MOUSE_BUTTON_LEFT, true⟩).bezierPoints
      = grabState.bezierPoints ∧
    (onMouseButton grabState ⟨GLFW_MOUSE_BUTTON_LEFT, true⟩).bezierPoints[75]?
      = some ⟨-1 / 20, 3 / 40⟩ ∧
    (buildCurve (onMouseButton grabState ⟨GLFW_MOUSE_BUTTON_LEFT, true⟩)).bezierPoints[75]?
      = some ⟨-47 / 960, 3 / 40⟩ := by
  have hup := onMouseButton_up grabState ⟨GLFW_MOUSE_BUTTON_LEFT, true⟩ 1 rfl rfl
    grabState_selection
  refine ⟨grabState_selection, ?_, ?_, ?_, ?_, ?_⟩
  · rw [hup]
  · rw [hup, grabState_write]
  · rw [hup]
  · rw [hup]
    show grabState.bezierPoints[75]? = _
    rw [grabState_bezierPoints, buildCurveData_get _ 75 (by decide), initialControlPoints,
      bezierPoint_four, Option.some.injEq, Vec2.ext_iff']
    constructor <;> norm_num
  · rw [buildCurve_bezierPoints, hup]
    show (buildCurveData (writeSelection grabState.controlPoints 1 grabState.position)).1[75]? = _
    rw [grabState_write, buildCurveData_get _ 75 (by decide), bezierPoint_four,
      Option.some.injEq, Vec2.ext_iff']
    constructor <;> norm_num

/-- C7 (evaluation at sceneTime = 4585 * 0.00005 and 4616 * 0.00005): there
floor(sceneTime * 650) is 149 and 150; the curve index computed in `drawScene` is 149
and then 0, where floor(sceneTime * 650) mod 151 is 149 and then 150: the index
returns to 0 without taking the value 150. -/
theorem C7_index_returns_to_zero_after_149 :
    ⌊(frameState 4585).sceneTime * 650⌋ = 149 ∧
    (drawScene (frameState 4585)).2.curvePosition = 149 ∧
    ⌊(frameState 4616).sceneTime * 650⌋ = 150 ∧
    (drawScene (frameState 4616)).2.curvePosition = 0 ∧
    ⌊(frameState 4616).sceneTime * 650⌋ % 151 = 150 := by
  have h1 : ⌊(frameState 4585).sceneTime * 650⌋ = 149 := by
    rw [frameState_sceneTime, Int.floor_eq_iff]
    constructor <;> norm_num
  have h2 : ⌊(frameState 4616).sceneTime * 650⌋ = 150 := by
    rw [frameState_sceneTime, Int.floor_eq_iff]
    constructor <;> norm_num
  have n1 : (0 : ℚ) ≤ (frameState 4585).sceneTime := by
    rw [frameState_sceneTime]
    norm_num
  have n2 : (0 : ℚ) ≤ (frameState 4616).sceneTime := by
    rw [frameState_sceneTime]
    norm_num
  refine ⟨h1, ?_, h2, ?_, ?_⟩
  · rw [drawScene_curvePosition, curvePosition_of_nonneg _ n1, h1]
    decide
  · rw [drawScene_curvePosition, curvePosition_of_nonneg _ n2, h2]
    decide
  · rw [h2]
    decide

/-- C8 (evaluation at sceneTime = 4585 * 0.00005, scaleTime = 4585 * 0.0002 = 0.917):
the curve index of the frame is 149, which is not the index 150 of the last of the 151
samples, and `drawScene` sets `scaleTime` to 0 in this frame; the scale factor of the
frame is 1 / (shrinkFactor * (0 + initialSize)) = 10/3. -/
theorem C8_reset_at_index_149 :
    (frameState 4585).bezierPoints.length = 151 ∧
    (frameState 4585).scaleTime = 917 / 1000 ∧
    (drawScene (frameState 4585)).2.curvePosition = 149 ∧
    (drawScene (frameState 4585)).1.scaleTime = 0 ∧
    (drawScene (frameState 4585)).2.scaleFactor = 1 / (shrinkFactor * (0 + initialSize)) ∧
    (drawScene (frameState 4585)).2.scaleFactor = 10 / 3 := by
  have h1 : ⌊(frameState 4585).sceneTime * 650⌋ = 149 := by
    rw [frameState_sceneTime, Int.floor_eq_iff]
    constructor <;> norm_num
  have n1 : (0 : ℚ) ≤ (frameState 4585).sceneTime := by
    rw [frameState_sceneTime]
    norm_num
  have hc : curvePosition (frameState 4585).sceneTime = 149 := by
    rw [curvePosition_of_nonneg _ n1, h1]
    decide
  have hs : (drawScene (frameState 4585)).1.scaleTime = 0 := by
    rw [drawScene_scaleTime, if_pos hc]
  refine ⟨?_, ?_, ?_, hs, ?_, ?_⟩
  · show initialState.bezierPoints.length = 151
    rw [initialState_bezierPoints]
    exact buildCurveData_length _
  · rw [frameState_scaleTime]
    norm_num
  · rw [drawScene_curvePosition, hc]
  · rw [drawScene_scaleFactor, hs]
  · rw [drawScene_scaleFactor, hs]
    norm_num [shrinkFactor, initialSize]

/-- C9 as stated fails: with control points 0 and 1 at (0,0) and (1/90,0) and the pointer
recorded at (1/90,0), point 1 is within the pick radius and point 0 is not closer to
the pointer than point 1 is, yet a left-button-down event selects index 0, because
point 0 is within the pick radius too. -/
theorem C9_counterexample :
    ¬ (∀ (s : State) (e : MouseButtonEvent) (i : Nat),
        s.controlPoints.length = 4 → e.button = GLFW_MOUSE_BUTTON_LEFT → e.released = false →
        i < 4 →
        Real.sqrt ((((at4 s.controlPoints i).x : ℝ) - (s.position.x : ℝ)) ^ 2
          + (((at4 s.controlPoints i).y : ℝ) - (s.position.y : ℝ)) ^ 2) < (10 / 720 : ℝ) →
        (∀ j : Nat, j < i →
          ¬ Real.sqrt ((((at4 s.controlPoints j).x : ℝ) - (s.position.x : ℝ)) ^ 2
              + (((at4 s.controlPoints j).y : ℝ) - (s.position.y : ℝ)) ^ 2)
            < Real.sqrt ((((at4 s.controlPoints i).x : ℝ) - (s.position.x : ℝ)) ^ 2
              + (((at4 s.controlPoints i).y : ℝ) - (s.position.y : ℝ)) ^ 2)) →
        (onMouseButton s e).selection = some i) := by
  intro h
  have hsel := h overlapState ⟨GLFW_MOUSE_BUTTON_LEFT, false⟩ 1
    (by rw [overlapState_controlPoints]; rfl) rfl rfl (by decide)
    (by
      rw [← hit_iff_dist, overlapState_controlPoints, overlapState_position]
      simp only [at4, List.getD_cons_zero, List.getD_cons_succ, Vec2.normLt, Vec2.normSq,
        Vec2.sub_x, Vec2.sub_y, pointSize, width, height]
      norm_num)
    (by
      intro j _ hlt
      rw [overlapState_controlPoints, overlapState_position] at hlt
      have hzero : Real.sqrt
          ((((at4 [(⟨0, 0⟩ : Vec2), ⟨1 / 90, 0⟩, ⟨-5 / 100, 0⟩, ⟨18 / 10, 1 / 10⟩] 1).x : ℝ)
              - (((⟨1 / 90, 0⟩ : Vec2).x : ℚ) : ℝ)) ^ 2
            + (((at4 [(⟨0, 0⟩ : Vec2), ⟨1 / 90, 0⟩, ⟨-5 / 100, 0⟩, ⟨18 / 10, 1 / 10⟩] 1).y : ℝ)
              - (((⟨1 / 90, 0⟩ : Vec2).y : ℚ) : ℝ)) ^ 2) = 0 := by
        simp [at4]
      rw [hzero] at hlt
      exact absurd hlt (not_lt.mpr (Real.sqrt_nonneg _)))
  rw [onMouseButton_down overlapState _ rfl rfl] at hsel
  have hpick : pickLoop overlapState.position overlapState.controlPoints 0 = some 1 := hsel
  rw [overlapState_pick] at hpick
  cases hpick

/-- C9, amended: on a left-button-down event, for every index i in 0..3, if the recorded
pointer position is within the pick radius of control point i and no control point of
lower index is within the pick radius, the event selects index i; and if the pointer is
outside the pick radius of all four control points, the event selects none. -/
theorem C9_first_within_radius_selected (s : State) (e : MouseButtonEvent) (i : Nat)
    (hlen : s.controlPoints.length = 4)
    (hb : e.button = GLFW_MOUSE_BUTTON_LEFT) (hr : e.released = false) (hi : i < 4) :
    ((Real.sqrt ((((at4 s.controlPoints i).x : ℝ) - (s.position.x : ℝ)) ^ 2
          + (((at4 s.controlPoints i).y : ℝ) - (s.position.y : ℝ)) ^ 2) < (10 / 720 : ℝ) ∧
      ∀ j : Nat, j < i →
        ¬ Real.sqrt ((((at4 s.controlPoints j).x : ℝ) - (s.position.x : ℝ)) ^ 2
            + (((at4 s.controlPoints j).y : ℝ) - (s.position.y : ℝ)) ^ 2) < (10 / 720 : ℝ)) →
      (onMouseButton s e).selection = some i) ∧
    ((∀ k : Nat, k < 4 →
        ¬ Real.sqrt ((((at4 s.controlPoints k).x : ℝ) - (s.position.x : ℝ)) ^ 2
            + (((at4 s.controlPoints k).y : ℝ) - (s.position.y : ℝ)) ^ 2) < (10 / 720 : ℝ)) →
      (onMouseButton s e).selection = none) := by
  rw [onMouseButton_down s e hb hr]
  constructor
  · rintro ⟨hd, hfirst⟩
    show pickLoop s.position s.controlPoints 0 = some i
    rw [pickLoop_some_iff]
    refine ⟨i, by omega, by omega, (hit_iff_dist _ _).mpr hd, ?_⟩
    intro m hm
    have := hfirst m hm
    rw [← hit_iff_dist] at this
    simpa using this
  · intro h
    show pickLoop s.position s.controlPoints 0 = none
    rw [pickLoop_none_iff, hlen]
    intro n hn
    have := h n hn
    rw [← hit_iff_dist] at this
    simpa using this

/-- Instance of the amended C9: in `hoverState` (pointer one pixel right of control
point 1, far from control point 0) a left-button-down event selects index 1. -/
theorem C9_first_within_radius_selected_witness :
    hoverState.controlPoints.length = 4 ∧ (1 : Nat) < 4 ∧
    (onMouseButton hoverState ⟨GLFW_MOUSE_BUTTON_LEFT, false⟩).selection = some 1 :=
  ⟨hoverState_length, by decide,
   (C9_first_within_radius_selected hoverState ⟨GLFW_MOUSE_BUTTON_LEFT, false⟩ 1
      hoverState_length rfl rfl (by decide)).1
     ⟨hoverState_near_point_one, by
        intro j hj
        have hj0 : j = 0 := by omega
        rw [hj0]
        exact hoverState_far_point_zero⟩⟩

/-- C10: for every pointer pixel position (x, y) the move listener records the
scene-space position (2x/width - 1, 1 - 2y/height) with width = height = 720: the
vertical axis is flipped, pixel (0,0) goes to (-1,1), the window centre (360,360) to
(0,0), and every pixel with 0 <= x <= width and 0 <= y <= height goes into
[-1,1] x [-1,1]; the position is recorded on every move event, with or without a
selection (the state `s` is arbitrary). -/
theorem C10_recorded_scene_position (s : State) (m : MouseMoveEvent) :
    (onMouseMove s m).position
      = ⟨2 * m.position.x / width - 1, 1 - 2 * m.position.y / height⟩ ∧
    width = 720 ∧ height = 720 ∧
    (onMouseMove s ⟨⟨0, 0⟩⟩).position = ⟨-1, 1⟩ ∧
    (onMouseMove s ⟨⟨360, 360⟩⟩).position = ⟨0, 0⟩ ∧
    (0 ≤ m.position.x → m.position.x ≤ width → 0 ≤ m.position.y → m.position.y ≤ height →
      (-1 ≤ (onMouseMove s m).position.x ∧ (onMouseMove s m).position.x ≤ 1 ∧
       -1 ≤ (onMouseMove s m).position.y ∧ (onMouseMove s m).position.y ≤ 1)) := by
  refine ⟨?_, rfl, rfl, ?_, ?_, ?_⟩
  · rw [onMouseMove_position, scenePosition_eq]
  · rw [onMouseMove_position, scenePosition_eq, Vec2.ext_iff']
    constructor <;> norm_num [width, height]
  · rw [onMouseMove_position, scenePosition_eq, Vec2.ext_iff']
    constructor <;> norm_num [width, height]
  · intro hx0 hx1 hy0 hy1
    rw [onMouseMove_position, scenePosition_eq]
    simp only [width, height] at *
    refine ⟨?_, ?_, ?_, ?_⟩
    · linarith
    · linarith
    · linarith
    · linarith

/-- Instance of C10 at pixel (90, 540) in the initial state: the recorded position is
(-3/4, -1/2), inside the square. -/
theorem C10_recorded_scene_position_witness :
    (0 : ℚ) ≤ 90 ∧ (90 : ℚ) ≤ width ∧ (0 : ℚ) ≤ 540 ∧ (540 : ℚ) ≤ height ∧
    (-1 ≤ (onMouseMove initialState ⟨⟨90, 540⟩⟩).position.x ∧
     (onMouseMove initialState ⟨⟨90, 540⟩⟩).position.x ≤ 1 ∧
     -1 ≤ (onMouseMove initialState ⟨⟨90, 540⟩⟩).position.y ∧
     (onMouseMove initialState ⟨⟨90, 540⟩⟩).position.y ≤ 1) :=
  ⟨by norm_num, by norm_num [width], by norm_num, by norm_num [height],
   (C10_recorded_scene_position initialState ⟨⟨90, 540⟩⟩).2.2.2.2.2
     (by norm_num) (by norm_num [width]) (by norm_num) (by norm_num [height])⟩

end BezierEditor
